import Mathlib

/-!
Verification development for the PhoenixGuard module-signature verification
library (`src/utils/pgmodverify.c`), the Appended Module Signature Verifier.

Shallow embedding conventions:
* a file's contents are a `List Nat` of byte values;
* the OpenSSL primitives (digesting, public-key verification, X.509 parsing)
  are external to the repository and appear as oracle parameters;
* allocation failures (`malloc`/`calloc`/`strdup` returning NULL) and short
  `fread`s on in-bounds ranges are outside the model;
* the C `struct module_signature` is read by `fread` of its in-memory
  representation; on the target platform (x86-64) that representation is
  5 one-byte fields, 3 padding bytes, and a 4-byte little-endian `sig_len`,
  12 bytes in total with no trailing padding.
-/

/-- The C string constant `MODULE_SIG_STRING`, `"~Module signature appended~\n"`,
as its 28 ASCII byte values. -/
def MODULE_SIG_STRING : List Nat :=
  [126, 77, 111, 100, 117, 108, 101, 32, 115, 105, 103, 110, 97, 116, 117,
   114, 101, 32, 97, 112, 112, 101, 110, 100, 101, 100, 126, 10]

/-- `MODULE_SIG_STRING_LEN` = `sizeof(MODULE_SIG_STRING) - 1` in the C source. -/
def MODULE_SIG_STRING_LEN : Nat := MODULE_SIG_STRING.length

/-- `MODULE_SIG_STRING` is exactly the byte rendering of the C string literal. -/
theorem MODULE_SIG_STRING_bytes :
    MODULE_SIG_STRING = "~Module signature appended~\n".data.map Char.toNat := by
  decide

theorem MODULE_SIG_STRING_LEN_eq : MODULE_SIG_STRING_LEN = 28 := by decide

/-- `struct module_signature` from `pgmodverify.c`: five one-byte fields, three
padding bytes, and the 32-bit `sig_len`. -/
structure module_signature where
  algo : Nat
  hash : Nat
  id_type : Nat
  signer_len : Nat
  key_id_len : Nat
  pad0 : Nat
  pad1 : Nat
  pad2 : Nat
  sig_len : Nat
deriving DecidableEq, Repr

/-- `sizeof(struct module_signature)` on the target platform. -/
def module_signature_size : Nat := 12

/-- Decoding of the 12 raw bytes `fread` places into a `struct module_signature`:
byte 0 `algo`, 1 `hash`, 2 `id_type`, 3 `signer_len`, 4 `key_id_len`,
5-7 padding, 8-11 `sig_len` in the platform's native (little-endian) order. -/
def decode_module_signature (b : List Nat) : module_signature :=
  { algo := b.getD 0 0
    hash := b.getD 1 0
    id_type := b.getD 2 0
    signer_len := b.getD 3 0
    key_id_len := b.getD 4 0
    pad0 := b.getD 5 0
    pad1 := b.getD 6 0
    pad2 := b.getD 7 0
    sig_len := b.getD 8 0 + 256 * b.getD 9 0 + 65536 * b.getD 10 0 +
      16777216 * b.getD 11 0 }

/-- The 12-byte in-memory rendering of a `struct module_signature`, used to
build trailer inputs the way a signer lays them out (each field reduced to its
byte range, `sig_len` in the same little-endian order the decoder reads). -/
def encode_trailer_header (s : module_signature) : List Nat :=
  [s.algo % 256, s.hash % 256, s.id_type % 256, s.signer_len % 256,
   s.key_id_len % 256, s.pad0 % 256, s.pad1 % 256, s.pad2 % 256,
   s.sig_len % 256, s.sig_len / 256 % 256, s.sig_len / 65536 % 256,
   s.sig_len / 16777216 % 256]

/-- `pg_find_module_signature`: checks the file is at least
`MODULE_SIG_STRING_LEN + sizeof(struct module_signature)` bytes, compares the
final `MODULE_SIG_STRING_LEN` bytes against the magic, reads the 12-byte
`struct module_signature` immediately before the magic, rejects
`sig_len == 0 || sig_len > file_size / 2`, and returns
`sig_offset - sig_len` (a `long`, possibly negative) together with the
out-parameter struct.  `none` stands for the early `return -1` paths; the
caller only distinguishes `< 0` from `>= 0`. -/
def pg_find_module_signature (file : List Nat) :
    Option (module_signature × Int) :=
  let file_size := file.length
  if file_size < MODULE_SIG_STRING_LEN + module_signature_size then
    none
  else
    let magic_buffer := file.drop (file_size - MODULE_SIG_STRING_LEN)
    if magic_buffer = MODULE_SIG_STRING then
      let sig_offset := file_size - MODULE_SIG_STRING_LEN - module_signature_size
      let sig := decode_module_signature ((file.drop sig_offset).take 12)
      if sig.sig_len = 0 ∨ sig.sig_len > file_size / 2 then
        none
      else
        some (sig, (sig_offset : Int) - (sig.sig_len : Int))
    else
      none

/-- A `cert_cache_entry_t`: a parsed certificate (abstract, of type `α`, since
X.509 objects live inside OpenSSL) together with its cached fingerprint. -/
structure cert_cache_entry_t (α : Type) where
  cert : α
  fingerprint : String
deriving DecidableEq, Repr

/-- One lowercase hex digit, as produced by `sprintf("%02x", ...)`. -/
def hexDigit (n : Nat) : Char :=
  if n < 10 then Char.ofNat (48 + n) else Char.ofNat (87 + n)

/-- Two lowercase hex digits of a byte. -/
def byteHex (b : Nat) : List Char := [hexDigit (b / 16 % 16), hexDigit (b % 16)]

/-- The fingerprint string built by the loop in `pg_load_certificate`:
lowercase hex of the certificate digest, or `"unknown"` when `X509_digest`
fails. `digest c` is the oracle for `X509_digest(cert, EVP_sha256(), ...)`. -/
def pg_fingerprint {α : Type} (digest : α → Option (List Nat)) (c : α) :
    String :=
  match digest c with
  | some md => String.mk (md.flatMap byteHex)
  | none => "unknown"

/-- `pg_load_certificate`: parse the certificate file (the `Option α` argument
is the combined PEM-then-DER parse outcome; `none` leaves the cache unchanged
and returns 0), then allocate a cache entry, prepend it to the cache list, and
store the computed fingerprint.  No lookup or deduplication is performed. -/
def pg_load_certificate {α : Type} (digest : α → Option (List Nat))
    (cert_cache : List (cert_cache_entry_t α)) (cert : Option α) :
    List (cert_cache_entry_t α) :=
  match cert with
  | none => cert_cache
  | some c => { cert := c, fingerprint := pg_fingerprint digest c } :: cert_cache

/-- `pg_verify_result_t`, as `calloc`'d and populated by
`pg_verify_module_signature`.  `verification_time` (wall clock) is omitted. -/
structure pg_verify_result_t where
  valid : Bool
  has_signature : Bool
  signer : Option String
  algorithm : Option String
  hash_algorithm : Option String
  error_message : Option String
  signature_offset : Int
  signature_size : Nat
deriving DecidableEq, Repr

/-- The `calloc(1, sizeof(pg_verify_result_t))` zero initialisation: both flags
false, all strings NULL, `signature_offset = 0`, `signature_size = 0`. -/
def pg_result_init : pg_verify_result_t :=
  { valid := false
    has_signature := false
    signer := none
    algorithm := none
    hash_algorithm := none
    error_message := none
    signature_offset := 0
    signature_size := 0 }

/-- The `switch (sig.hash)` of `pg_verify_module_signature`: the digest name
selected for each hash id, `none` for the `default:` branch. -/
def hashName (h : Nat) : Option String :=
  match h with
  | 0 => some "sha1"
  | 1 => some "sha224"
  | 2 => some "sha256"
  | 3 => some "sha384"
  | 4 => some "sha512"
  | _ => none

/-- `pg_verify_module_signature`.  Parameters beyond the module file:
* `cert_cache` — the certificate cache list (head = most recently loaded);
* `verify_with_cert` — oracle for `pg_verify_signature_with_cert`, applied to
  the module hash, the signature bytes, and the certificate;
* `calc_hash` — oracle for `pg_calculate_module_hash`, applied to the digest
  name and the hashed content prefix;
* `module_file` — `none` models `fopen` failure.

Signature extraction (`pg_extract_signature`) always succeeds in the model
because the extracted range `[sig_data_offset, sig_data_offset + sig_len)`
lies inside the file whenever the offset is non-negative. -/
def pg_verify_module_signature {α : Type}
    (cert_cache : List (cert_cache_entry_t α))
    (verify_with_cert : List Nat → List Nat → α → Bool)
    (calc_hash : String → List Nat → List Nat)
    (module_file : Option (List Nat)) : pg_verify_result_t :=
  match module_file with
  | none => { pg_result_init with
      error_message := some "Failed to open module file" }
  | some file =>
    match pg_find_module_signature file with
    | none => { pg_result_init with
        error_message := some "No signature found in module" }
    | some (sig, sig_data_offset) =>
      if sig_data_offset < 0 then
        { pg_result_init with
          error_message := some "No signature found in module" }
      else
        let r := { pg_result_init with
          has_signature := true
          signature_offset := sig_data_offset
          signature_size := sig.sig_len }
        let sig_data := (file.drop sig_data_offset.toNat).take sig.sig_len
        match hashName sig.hash with
        | none => { r with error_message := some "Unknown hash algorithm" }
        | some hname =>
          let r := { r with hash_algorithm := some hname }
          let module_hash := calc_hash hname (file.take sig_data_offset.toNat)
          match cert_cache.find?
              (fun e => verify_with_cert module_hash sig_data e.cert) with
          | some e => { r with
              valid := true
              signer := some e.fingerprint
              algorithm := some "rsa" }
          | none => { r with
              error_message :=
                some "Signature verification failed against all certificates" }

/-- A module file laid out as the spec's trailer grammar dictates:
`content || signature || signer_name || key_id || TrailerHeader || MAGIC`. -/
def buildModule (content sigBytes signer keyid : List Nat)
    (hdr : module_signature) : List Nat :=
  content ++ sigBytes ++ signer ++ keyid ++ encode_trailer_header hdr ++
    MODULE_SIG_STRING

/-- Byte offsets written while building a fingerprint whose digest has
`md_len` bytes: each `sprintf(fingerprint + i*2, "%02x", md[i])` writes the
two hex characters at `2i`, `2i+1` and its terminating NUL at `2i+2`, and the
final statement writes the NUL at `md_len*2`. -/
def fingerprint_write_offsets (md_len : Nat) : List Nat :=
  ((List.range md_len).map (fun i => [2 * i, 2 * i + 1, 2 * i + 2])).flatten ++
    [2 * md_len]

/-- The allocation backing each cached fingerprint: `malloc(64)`. -/
def fingerprint_buffer_size : Nat := 64

/-- The digest length of `EVP_sha256()`, the algorithm `pg_load_certificate`
passes to `X509_digest`. -/
def SHA256_digest_len : Nat := 32

example :
    pg_find_module_signature
      (buildModule [7] [9] [] []
        { algo := 0, hash := 2, id_type := 1, signer_len := 0, key_id_len := 0,
          pad0 := 0, pad1 := 0, pad2 := 0, sig_len := 1 }) =
    some ({ algo := 0, hash := 2, id_type := 1, signer_len := 0,
            key_id_len := 0, pad0 := 0, pad1 := 0, pad2 := 0, sig_len := 1 },
          1) := by
  decide

theorem encode_trailer_header_length (s : module_signature) :
    (encode_trailer_header s).length = 12 := rfl

theorem MODULE_SIG_STRING_length : MODULE_SIG_STRING.length = 28 := by decide

/-- Decoding the encoded header recovers `sig_len` when it fits in 32 bits. -/
theorem decode_encode_sig_len (s : module_signature)
    (h32 : s.sig_len < 4294967296) :
    (decode_module_signature (encode_trailer_header s)).sig_len = s.sig_len := by
  have h : (decode_module_signature (encode_trailer_header s)).sig_len =
      s.sig_len % 256 + 256 * (s.sig_len / 256 % 256) +
      65536 * (s.sig_len / 65536 % 256) +
      16777216 * (s.sig_len / 16777216 % 256) := rfl
  rw [h]
  omega

/-- What `pg_find_module_signature` computes on a file laid out as
`content || signature || signer || key_id || header || MAGIC`:
it succeeds (for an in-range `sig_len`) and returns content-end offset
`len(content) + len(signer) + len(key_id)` — the signer-name and key-id
lengths recorded in the header are never subtracted. -/
theorem pg_find_buildModule (content sigBytes signer keyid : List Nat)
    (hdr : module_signature)
    (hlen : hdr.sig_len = sigBytes.length)
    (h1 : 1 ≤ sigBytes.length)
    (h32 : sigBytes.length < 4294967296)
    (h2 : sigBytes.length ≤
      (buildModule content sigBytes signer keyid hdr).length / 2) :
    pg_find_module_signature (buildModule content sigBytes signer keyid hdr) =
      some (decode_module_signature (encode_trailer_header hdr),
        ((content.length + signer.length + keyid.length : Nat) : Int)) := by
  have hN : (buildModule content sigBytes signer keyid hdr).length =
      content.length + sigBytes.length + signer.length + keyid.length + 40 := by
    simp [buildModule, encode_trailer_header_length, MODULE_SIG_STRING_length]
    omega
  have hsplit1 : buildModule content sigBytes signer keyid hdr =
      (content ++ (sigBytes ++ (signer ++ (keyid ++ encode_trailer_header hdr))))
        ++ MODULE_SIG_STRING := by
    simp [buildModule, List.append_assoc]
  have hsplit2 : buildModule content sigBytes signer keyid hdr =
      (content ++ (sigBytes ++ (signer ++ keyid))) ++
        (encode_trailer_header hdr ++ MODULE_SIG_STRING) := by
    simp [buildModule, List.append_assoc]
  have hlen1 :
      (content ++ (sigBytes ++ (signer ++ (keyid ++ encode_trailer_header hdr)))).length
        = (buildModule content sigBytes signer keyid hdr).length -
            MODULE_SIG_STRING_LEN := by
    simp [encode_trailer_header_length, MODULE_SIG_STRING_LEN_eq, hN]
    omega
  have hlen2 : (content ++ (sigBytes ++ (signer ++ keyid))).length =
      (buildModule content sigBytes signer keyid hdr).length -
        MODULE_SIG_STRING_LEN - module_signature_size := by
    simp [ MODULE_SIG_STRING_LEN_eq, module_signature_size, hN]
    omega
  have hmagic : (buildModule content sigBytes signer keyid hdr).drop
      ((buildModule content sigBytes signer keyid hdr).length -
        MODULE_SIG_STRING_LEN) = MODULE_SIG_STRING := by
    have h' := @List.drop_left' Nat _ MODULE_SIG_STRING _ hlen1
    rw [← hsplit1] at h'
    exact h'
  have hhdr : ((buildModule content sigBytes signer keyid hdr).drop
      ((buildModule content sigBytes signer keyid hdr).length -
        MODULE_SIG_STRING_LEN - module_signature_size)).take 12 =
      encode_trailer_header hdr := by
    have h' := @List.drop_left' Nat _
      (encode_trailer_header hdr ++ MODULE_SIG_STRING) _ hlen2
    rw [← hsplit2] at h'
    rw [h']
    exact List.take_left' (encode_trailer_header_length hdr)
  have hge : ¬ ((buildModule content sigBytes signer keyid hdr).length <
      MODULE_SIG_STRING_LEN + module_signature_size) := by
    rw [ MODULE_SIG_STRING_LEN_eq]
    show ¬ (_ < 28 + module_signature_size)
    rw [hN]
    show ¬ (_ < 28 + 12)
    omega
  have hsiglen : (decode_module_signature (encode_trailer_header hdr)).sig_len =
      sigBytes.length := by
    rw [decode_encode_sig_len hdr (by omega), hlen]
  have hcond : ¬ ((decode_module_signature (encode_trailer_header hdr)).sig_len
      = 0 ∨ (buildModule content sigBytes signer keyid hdr).length / 2 <
        (decode_module_signature (encode_trailer_header hdr)).sig_len) := by
    rw [hsiglen]
    omega
  have hoff : (((buildModule content sigBytes signer keyid hdr).length -
      MODULE_SIG_STRING_LEN - module_signature_size : Nat) : Int) -
      (((decode_module_signature (encode_trailer_header hdr)).sig_len : Nat) :
        Int) =
      ((content.length + signer.length + keyid.length : Nat) : Int) := by
    rw [hsiglen]
    simp only [ MODULE_SIG_STRING_LEN_eq, module_signature_size, hN]
    omega
  unfold pg_find_module_signature
  simp only [if_neg hge, hmagic, hhdr]
  rw [if_pos trivial, if_neg hcond, hoff]

/-- The header of a signed module whose signature is 2 bytes, with a 2-byte
signer name recorded in `signer_len`. -/
def hdrC1 : module_signature :=
  { algo := 0, hash := 2, id_type := 1, signer_len := 2, key_id_len := 0,
    pad0 := 0, pad1 := 0, pad2 := 0, sig_len := 2 }

/-- A 45-byte module laid out `content [7] || signature [9,9] ||
signer name [5,6] || key id [] || header || MAGIC`. -/
def moduleC1 : List Nat := buildModule [7] [9, 9] [5, 6] [] hdrC1

/-- C1 counterexample: on the 45-byte module `moduleC1`, built exactly as
`content || signature || signer_name || key_id || TrailerHeader || MAGIC`
with all header length fields matching, `pg_find_module_signature` returns
content end 3, not `len(content) = 1`, and the claimed invariant
`content_end + sig_len + signer_len + key_id_len + 11 + len(MAGIC) == N`
fails (it sums to 46 while `N = 45`). -/
theorem trailer_roundtrip_counterexample :
    (pg_find_module_signature moduleC1).map Prod.snd = some 3 ∧
    ¬ ((pg_find_module_signature moduleC1).map Prod.snd = some 1) ∧
    moduleC1.length = 45 ∧
    ¬ (3 + 2 + 2 + 0 + 11 + MODULE_SIG_STRING.length = moduleC1.length) := by
  decide

/-- C1 (amended): for a byte sequence
`content || signature || signer_name || key_id || TrailerHeader || MAGIC`
with field lengths matching the header (and `sig_len` in range),
`pg_find_module_signature` succeeds and returns `sig_len = len(signature)`
but content end `len(content) + signer_len + key_id_len` — the signer-name
and key-id lengths are not subtracted — and the layout invariant is
`content_end + sig_len + 12 + len(MAGIC) == N` (a 12-byte header, with no
signer/key-id terms). -/
theorem trailer_roundtrip_amended (content sigBytes signer keyid : List Nat)
    (hdr : module_signature)
    (hsig : hdr.sig_len = sigBytes.length)
    (hsgn : hdr.signer_len = signer.length)
    (hkid : hdr.key_id_len = keyid.length)
    (h1 : 1 ≤ sigBytes.length)
    (h32 : sigBytes.length < 4294967296)
    (h2 : sigBytes.length ≤
      (buildModule content sigBytes signer keyid hdr).length / 2) :
    ∃ s : module_signature,
      pg_find_module_signature (buildModule content sigBytes signer keyid hdr)
        = some (s, ((content.length + signer.length + keyid.length : Nat) :
            Int)) ∧
      s.sig_len = sigBytes.length ∧
      content.length + signer.length + keyid.length + s.sig_len +
        module_signature_size + MODULE_SIG_STRING.length =
        (buildModule content sigBytes signer keyid hdr).length := by
  refine ⟨decode_module_signature (encode_trailer_header hdr),
    pg_find_buildModule content sigBytes signer keyid hdr hsig h1 h32 h2,
    ?_, ?_⟩
  · rw [decode_encode_sig_len hdr (by omega), hsig]
  · rw [decode_encode_sig_len hdr (by omega), hsig]
    simp [buildModule, encode_trailer_header_length, MODULE_SIG_STRING_length,
      module_signature_size]
    omega

/-- Witness for the amended C1 theorem at the concrete module `moduleC1`. -/
theorem trailer_roundtrip_amended_witness :
    ∃ s : module_signature,
      pg_find_module_signature (buildModule [7] [9, 9] [5, 6] [] hdrC1)
        = some (s, ((([7] : List Nat).length + ([5, 6] : List Nat).length +
            ([] : List Nat).length : Nat) : Int)) ∧
      s.sig_len = ([9, 9] : List Nat).length ∧
      ([7] : List Nat).length + ([5, 6] : List Nat).length +
        ([] : List Nat).length + s.sig_len + module_signature_size +
        MODULE_SIG_STRING.length =
        (buildModule [7] [9, 9] [5, 6] [] hdrC1).length :=
  trailer_roundtrip_amended [7] [9, 9] [5, 6] [] hdrC1 (by decide) (by decide)
    (by decide) (by decide) (by decide) (by decide)

/-- On a file of at least 40 bytes ending in MAGIC, `pg_find_module_signature`
reduces to the `sig_len` validation and the final offset computation. -/
theorem pg_find_eq_of_magic (file : List Nat) (h40 : 40 ≤ file.length)
    (hmagic : file.drop (file.length - 28) = MODULE_SIG_STRING) :
    pg_find_module_signature file =
      (if (decode_module_signature
            ((file.drop (file.length - 40)).take 12)).sig_len = 0 ∨
          (decode_module_signature
            ((file.drop (file.length - 40)).take 12)).sig_len >
            file.length / 2
       then none
       else some (decode_module_signature
          ((file.drop (file.length - 40)).take 12),
         ((file.length - 40 : Nat) : Int) -
           ((decode_module_signature
             ((file.drop (file.length - 40)).take 12)).sig_len : Int))) := by
  have hge : ¬ (file.length < MODULE_SIG_STRING_LEN + module_signature_size) := by
    rw [ MODULE_SIG_STRING_LEN_eq]
    show ¬ (file.length < 28 + 12)
    omega
  have h28 : file.length - MODULE_SIG_STRING_LEN = file.length - 28 := by
    rw [ MODULE_SIG_STRING_LEN_eq]
  have h40' : file.length - 28 - module_signature_size = file.length - 40 := by
    show file.length - 28 - 12 = file.length - 40
    omega
  unfold pg_find_module_signature
  simp only [if_neg hge, h28, h40', hmagic]
  rw [if_pos trivial]

/-- A 44-byte file ending in MAGIC whose trailer reads `sig_len = 23`, which
exceeds `file_size / 2 = 22`. -/
def moduleC2 : List Nat :=
  [1, 2, 3, 4] ++ [0, 2, 1, 0, 0, 0, 0, 0, 23, 0, 0, 0] ++ MODULE_SIG_STRING

/-- C2 counterexample: `moduleC2` ends in MAGIC and carries an oversized
`sig_len` (23 > 44/2), yet the verify result has `has_signature = false` and
the no-signature error — not the `has_signature = true` malformed outcome the
claim requires. -/
theorem oversized_siglen_counterexample :
    moduleC2.drop (moduleC2.length - 28) = MODULE_SIG_STRING ∧
    (decode_module_signature
      ((moduleC2.drop (moduleC2.length - 40)).take 12)).sig_len = 23 ∧
    moduleC2.length / 2 = 22 ∧
    (pg_verify_module_signature ([] : List (cert_cache_entry_t Nat))
      (fun _ _ _ => false) (fun _ _ => []) (some moduleC2)).has_signature =
      false ∧
    (pg_verify_module_signature ([] : List (cert_cache_entry_t Nat))
      (fun _ _ _ => false) (fun _ _ => []) (some moduleC2)).error_message =
      some "No signature found in module" := by
  decide

/-- C2 (amended): for every file of at least 40 bytes whose final 28 bytes
equal MAGIC but whose trailer has an oversized `sig_len` (`sig_len == 0`,
`sig_len > N/2`, or `sig_len` making the content end negative), the verify
result has `has_signature = false`, `valid = false` and the error message
`"No signature found in module"`: the code folds malformed trailers into the
no-signature outcome instead of distinguishing them. -/
theorem oversized_siglen_amended {α : Type}
    (certs : List (cert_cache_entry_t α))
    (verify_with_cert : List Nat → List Nat → α → Bool)
    (calc_hash : String → List Nat → List Nat)
    (file : List Nat)
    (h40 : 40 ≤ file.length)
    (hmagic : file.drop (file.length - 28) = MODULE_SIG_STRING)
    (hbad : (decode_module_signature
        ((file.drop (file.length - 40)).take 12)).sig_len = 0 ∨
      file.length / 2 < (decode_module_signature
        ((file.drop (file.length - 40)).take 12)).sig_len ∨
      (file.length : Int) - 40 - ((decode_module_signature
        ((file.drop (file.length - 40)).take 12)).sig_len : Int) < 0) :
    (pg_verify_module_signature certs verify_with_cert calc_hash
      (some file)).has_signature = false ∧
    (pg_verify_module_signature certs verify_with_cert calc_hash
      (some file)).valid = false ∧
    (pg_verify_module_signature certs verify_with_cert calc_hash
      (some file)).error_message = some "No signature found in module" := by
  have hfind := pg_find_eq_of_magic file h40 hmagic
  by_cases h0 : (decode_module_signature
      ((file.drop (file.length - 40)).take 12)).sig_len = 0 ∨
      (decode_module_signature
        ((file.drop (file.length - 40)).take 12)).sig_len > file.length / 2
  · rw [if_pos h0] at hfind
    simp [pg_verify_module_signature, hfind, pg_result_init]
  · rw [if_neg h0] at hfind
    have hneg : file.length - 40 < (decode_module_signature
        ((file.drop (file.length - 40)).take 12)).sig_len := by
      rcases hbad with h | h | h
      · exact absurd (Or.inl h) h0
      · exact absurd (Or.inr h) h0
      · omega
    simp [pg_verify_module_signature, hfind, hneg, pg_result_init]

/-- Witness for the amended C2 theorem at the concrete file `moduleC2`. -/
theorem oversized_siglen_amended_witness :
    (pg_verify_module_signature ([] : List (cert_cache_entry_t Nat))
      (fun _ _ _ => true) (fun _ _ => []) (some moduleC2)).has_signature =
      false ∧
    (pg_verify_module_signature ([] : List (cert_cache_entry_t Nat))
      (fun _ _ _ => true) (fun _ _ => []) (some moduleC2)).valid = false ∧
    (pg_verify_module_signature ([] : List (cert_cache_entry_t Nat))
      (fun _ _ _ => true) (fun _ _ => []) (some moduleC2)).error_message =
      some "No signature found in module" :=
  oversized_siglen_amended [] (fun _ _ _ => true) (fun _ _ => []) moduleC2
    (by decide) (by decide) (Or.inr (Or.inl (by decide)))

/-- Exhaustive shape analysis of `pg_verify_module_signature`: every result is
one of the five populated records the function can build (open failure,
no signature found, unknown hash, no certificate matched, match found). -/
theorem pg_verify_result_cases {α : Type}
    (certs : List (cert_cache_entry_t α))
    (verify_with_cert : List Nat → List Nat → α → Bool)
    (calc_hash : String → List Nat → List Nat)
    (module_file : Option (List Nat)) :
    pg_verify_module_signature certs verify_with_cert calc_hash module_file =
      { pg_result_init with
        error_message := some "Failed to open module file" } ∨
    pg_verify_module_signature certs verify_with_cert calc_hash module_file =
      { pg_result_init with
        error_message := some "No signature found in module" } ∨
    (∃ off : Int, ∃ siglen : Nat,
      pg_verify_module_signature certs verify_with_cert calc_hash module_file =
        { pg_result_init with
          has_signature := true
          signature_offset := off
          signature_size := siglen
          error_message := some "Unknown hash algorithm" }) ∨
    (∃ off : Int, ∃ siglen : Nat, ∃ hn : String,
      pg_verify_module_signature certs verify_with_cert calc_hash module_file =
        { pg_result_init with
          has_signature := true
          signature_offset := off
          signature_size := siglen
          hash_algorithm := some hn
          error_message :=
            some "Signature verification failed against all certificates" }) ∨
    (∃ off : Int, ∃ siglen : Nat, ∃ hn fp : String,
      pg_verify_module_signature certs verify_with_cert calc_hash module_file =
        { valid := true
          has_signature := true
          signer := some fp
          algorithm := some "rsa"
          hash_algorithm := some hn
          error_message := none
          signature_offset := off
          signature_size := siglen }) := by
  cases module_file with
  | none => exact Or.inl rfl
  | some file =>
    cases hfind : pg_find_module_signature file with
    | none =>
      exact Or.inr (Or.inl (by simp [pg_verify_module_signature, hfind]))
    | some p =>
      obtain ⟨sig, off⟩ := p
      by_cases hoff : off < 0
      · exact Or.inr (Or.inl
          (by simp [pg_verify_module_signature, hfind, hoff]))
      · cases hh : hashName sig.hash with
        | none =>
          refine Or.inr (Or.inr (Or.inl ⟨off, sig.sig_len, ?_⟩))
          simp [pg_verify_module_signature, hfind, hoff, hh]
        | some hn =>
          cases hfd : certs.find? (fun e =>
              verify_with_cert (calc_hash hn (file.take off.toNat))
                ((file.drop off.toNat).take sig.sig_len) e.cert) with
          | none =>
            refine Or.inr (Or.inr (Or.inr (Or.inl
              ⟨off, sig.sig_len, hn, ?_⟩)))
            simp [pg_verify_module_signature, hfind, hoff, hh, hfd]
          | some e =>
            refine Or.inr (Or.inr (Or.inr (Or.inr
              ⟨off, sig.sig_len, hn, e.fingerprint, ?_⟩)))
            simp [pg_verify_module_signature, hfind, hoff, hh, hfd,
              pg_result_init]

/-- The header of a minimal well-formed signed module: RSA, sha256, one
signature byte, no signer name or key id. -/
def hdrOK : module_signature :=
  { algo := 0, hash := 2, id_type := 1, signer_len := 0, key_id_len := 0,
    pad0 := 0, pad1 := 0, pad2 := 0, sig_len := 1 }

/-- A 42-byte well-formed signed module: `content [7] || signature [9] ||
header || MAGIC`. -/
def moduleOK : List Nat := buildModule [7] [9] [] [] hdrOK

/-- A digest oracle for concrete certificates numbered by `Nat`: certificate
`c` digests to the single byte `c`. -/
def dgC3 : Nat → Option (List Nat) := fun c => some [c]

/-- C3 counterexample: certificates A = 0 (fingerprint "00") and B = 1
(fingerprint "01") are loaded in the order [A, B] and both verify the signed
module (the verify oracle accepts everything), yet `signer` is B's
fingerprint "01", not A's fingerprint "00" as the claim requires: the cache
is a prepend list, so iteration runs in reverse insertion order. -/
theorem cert_order_counterexample :
    (pg_verify_module_signature
      (pg_load_certificate dgC3 (pg_load_certificate dgC3 [] (some 0))
        (some 1))
      (fun _ _ _ => true) (fun _ _ => []) (some moduleOK)).signer =
      some "01" ∧
    pg_fingerprint dgC3 0 = "00" ∧
    ¬ ((pg_verify_module_signature
      (pg_load_certificate dgC3 (pg_load_certificate dgC3 [] (some 0))
        (some 1))
      (fun _ _ _ => true) (fun _ _ => []) (some moduleOK)).signer =
      some (pg_fingerprint dgC3 0)) ∧
    (pg_verify_module_signature
      (pg_load_certificate dgC3 (pg_load_certificate dgC3 [] (some 0))
        (some 1))
      (fun _ _ _ => true) (fun _ _ => []) (some moduleOK)).valid = true := by
  decide

/-- C3 (amended): for every signed module whose trailer parses (non-negative
content offset, known hash id) and every store loaded in order [A, B] with
both certificates accepted by the verify oracle, `signer` equals B's
fingerprint: the cache prepends on load, so the most recently loaded matching
certificate wins and earlier loads are not examined. -/
theorem cert_order_amended {α : Type} (a b : α)
    (digest : α → Option (List Nat))
    (verify_with_cert : List Nat → List Nat → α → Bool)
    (calc_hash : String → List Nat → List Nat)
    (file : List Nat) (sig : module_signature) (off : Int) (hn : String)
    (hfind : pg_find_module_signature file = some (sig, off))
    (hoff : 0 ≤ off)
    (hhash : hashName sig.hash = some hn)
    (ha : ∀ h s, verify_with_cert h s a = true)
    (hb : ∀ h s, verify_with_cert h s b = true) :
    (pg_verify_module_signature
      (pg_load_certificate digest (pg_load_certificate digest [] (some a))
        (some b))
      verify_with_cert calc_hash (some file)).signer =
      some (pg_fingerprint digest b) ∧
    (pg_verify_module_signature
      (pg_load_certificate digest (pg_load_certificate digest [] (some a))
        (some b))
      verify_with_cert calc_hash (some file)).valid = true := by
  have hnlt : ¬ (off < 0) := not_lt.mpr hoff
  simp [pg_verify_module_signature, hfind, hnlt, hhash,
    pg_load_certificate, List.find?, hb]

/-- Witness for the amended C3 theorem: concrete certificates 0 and 1 with
the always-accepting verify oracle on `moduleOK`. -/
theorem cert_order_amended_witness :
    (pg_verify_module_signature
      (pg_load_certificate dgC3 (pg_load_certificate dgC3 [] (some 0))
        (some 1))
      (fun _ _ _ => true) (fun _ _ => []) (some moduleOK)).signer =
      some (pg_fingerprint dgC3 1) ∧
    (pg_verify_module_signature
      (pg_load_certificate dgC3 (pg_load_certificate dgC3 [] (some 0))
        (some 1))
      (fun _ _ _ => true) (fun _ _ => []) (some moduleOK)).valid = true :=
  cert_order_amended 0 1 dgC3 (fun _ _ _ => true) (fun _ _ => [])
    moduleOK hdrOK 1 "sha256" (by decide) (by decide) (by decide)
    (fun _ _ => rfl) (fun _ _ => rfl)

/-- A 50-byte file with no trailer: 50 zero bytes. -/
def moduleC4 : List Nat := List.replicate 50 0

/-- C4 counterexample: verifying the unsigned file `moduleC4` yields
`has_signature = false` with `signature_offset = 0`, not `-1` as the claim
requires: the result is `calloc`-zeroed and the offset field is never set on
the no-signature paths. -/
theorem no_signature_fields_counterexample :
    (pg_verify_module_signature ([] : List (cert_cache_entry_t Nat))
      (fun _ _ _ => false) (fun _ _ => []) (some moduleC4)).has_signature =
      false ∧
    (pg_verify_module_signature ([] : List (cert_cache_entry_t Nat))
      (fun _ _ _ => false) (fun _ _ => []) (some moduleC4)).signature_offset =
      0 ∧
    ¬ ((pg_verify_module_signature ([] : List (cert_cache_entry_t Nat))
      (fun _ _ _ => false) (fun _ _ => []) (some moduleC4)).signature_offset =
      -1) := by
  decide

/-- C4 (amended): for every verification returning a result with
`has_signature = false`, the result has `valid = false`,
`signature_offset = 0` (the `calloc` zero, not `-1`), and
`signature_size = 0`. -/
theorem no_signature_fields_amended {α : Type}
    (certs : List (cert_cache_entry_t α))
    (verify_with_cert : List Nat → List Nat → α → Bool)
    (calc_hash : String → List Nat → List Nat)
    (module_file : Option (List Nat))
    (h : (pg_verify_module_signature certs verify_with_cert calc_hash
      module_file).has_signature = false) :
    (pg_verify_module_signature certs verify_with_cert calc_hash
      module_file).valid = false ∧
    (pg_verify_module_signature certs verify_with_cert calc_hash
      module_file).signature_offset = 0 ∧
    (pg_verify_module_signature certs verify_with_cert calc_hash
      module_file).signature_size = 0 := by
  rcases pg_verify_result_cases certs verify_with_cert calc_hash module_file
    with hc | hc | ⟨off, sl, hc⟩ | ⟨off, sl, hn, hc⟩ | ⟨off, sl, hn, fp, hc⟩ <;>
    rw [hc] at h ⊢ <;> simp_all [pg_result_init]

/-- Witness for the amended C4 theorem at the unsigned file `moduleC4`. -/
theorem no_signature_fields_amended_witness :
    (pg_verify_module_signature ([] : List (cert_cache_entry_t Nat))
      (fun _ _ _ => false) (fun _ _ => []) (some moduleC4)).valid = false ∧
    (pg_verify_module_signature ([] : List (cert_cache_entry_t Nat))
      (fun _ _ _ => false) (fun _ _ => []) (some moduleC4)).signature_offset =
      0 ∧
    (pg_verify_module_signature ([] : List (cert_cache_entry_t Nat))
      (fun _ _ _ => false) (fun _ _ => []) (some moduleC4)).signature_size =
      0 :=
  no_signature_fields_amended [] (fun _ _ _ => false) (fun _ _ => [])
    (some moduleC4) (by decide)

/-- C5: for every verification result, `valid = true` implies
`has_signature = true`, no error message, and present `signer`, `algorithm`
and `hash_algorithm`; moreover an error message is present exactly when
`valid` is false. -/
theorem result_consistency {α : Type}
    (certs : List (cert_cache_entry_t α))
    (verify_with_cert : List Nat → List Nat → α → Bool)
    (calc_hash : String → List Nat → List Nat)
    (module_file : Option (List Nat)) :
    ((pg_verify_module_signature certs verify_with_cert calc_hash
        module_file).valid = true →
      (pg_verify_module_signature certs verify_with_cert calc_hash
        module_file).has_signature = true ∧
      (pg_verify_module_signature certs verify_with_cert calc_hash
        module_file).error_message = none ∧
      (pg_verify_module_signature certs verify_with_cert calc_hash
        module_file).signer ≠ none ∧
      (pg_verify_module_signature certs verify_with_cert calc_hash
        module_file).algorithm ≠ none ∧
      (pg_verify_module_signature certs verify_with_cert calc_hash
        module_file).hash_algorithm ≠ none) ∧
    ((pg_verify_module_signature certs verify_with_cert calc_hash
        module_file).error_message ≠ none ↔
      (pg_verify_module_signature certs verify_with_cert calc_hash
        module_file).valid = false) := by
  rcases pg_verify_result_cases certs verify_with_cert calc_hash module_file
    with hc | hc | ⟨off, sl, hc⟩ | ⟨off, sl, hn, hc⟩ | ⟨off, sl, hn, fp, hc⟩ <;>
    rw [hc] <;> simp [pg_result_init]

/-- Witness for C5: a concrete verification that succeeds (`valid = true`)
and satisfies the success conjunction. -/
theorem result_consistency_witness :
    (pg_verify_module_signature [({ cert := 0, fingerprint := "aa" } :
        cert_cache_entry_t Nat)]
      (fun _ _ _ => true) (fun _ _ => []) (some moduleOK)).valid = true ∧
    ((pg_verify_module_signature [({ cert := 0, fingerprint := "aa" } :
        cert_cache_entry_t Nat)]
      (fun _ _ _ => true) (fun _ _ => []) (some moduleOK)).has_signature =
        true ∧
    (pg_verify_module_signature [({ cert := 0, fingerprint := "aa" } :
        cert_cache_entry_t Nat)]
      (fun _ _ _ => true) (fun _ _ => []) (some moduleOK)).error_message =
        none ∧
    (pg_verify_module_signature [({ cert := 0, fingerprint := "aa" } :
        cert_cache_entry_t Nat)]
      (fun _ _ _ => true) (fun _ _ => []) (some moduleOK)).signer ≠ none ∧
    (pg_verify_module_signature [({ cert := 0, fingerprint := "aa" } :
        cert_cache_entry_t Nat)]
      (fun _ _ _ => true) (fun _ _ => []) (some moduleOK)).algorithm ≠ none ∧
    (pg_verify_module_signature [({ cert := 0, fingerprint := "aa" } :
        cert_cache_entry_t Nat)]
      (fun _ _ _ => true) (fun _ _ => []) (some moduleOK)).hash_algorithm ≠
        none) :=
  ⟨by decide,
    (result_consistency [{ cert := 0, fingerprint := "aa" }]
      (fun _ _ _ => true) (fun _ _ => []) (some moduleOK)).1 (by decide)⟩

/-- C6 counterexample: verifying the well-formed signed module `moduleOK`
against an empty store yields the generic
`"Signature verification failed against all certificates"` message, not the
`"No certificates loaded"` message the claim requires: the code has no
empty-store case, the loop simply never runs. -/
theorem empty_store_counterexample :
    (pg_verify_module_signature ([] : List (cert_cache_entry_t Nat))
      (fun _ _ _ => true) (fun _ _ => []) (some moduleOK)).has_signature =
      true ∧
    (pg_verify_module_signature ([] : List (cert_cache_entry_t Nat))
      (fun _ _ _ => true) (fun _ _ => []) (some moduleOK)).valid = false ∧
    (pg_verify_module_signature ([] : List (cert_cache_entry_t Nat))
      (fun _ _ _ => true) (fun _ _ => []) (some moduleOK)).error_message =
      some "Signature verification failed against all certificates" ∧
    ¬ ((pg_verify_module_signature ([] : List (cert_cache_entry_t Nat))
      (fun _ _ _ => true) (fun _ _ => []) (some moduleOK)).error_message =
      some "No certificates loaded") := by
  decide

/-- C6 (amended): for every module whose trailer parses (non-negative offset,
known hash id), verifying against a store with zero certificates yields
`has_signature = true`, `valid = false`, and the generic error message
`"Signature verification failed against all certificates"` — the empty store
is not distinguished. -/
theorem empty_store_amended {α : Type}
    (verify_with_cert : List Nat → List Nat → α → Bool)
    (calc_hash : String → List Nat → List Nat)
    (file : List Nat) (sig : module_signature) (off : Int) (hn : String)
    (hfind : pg_find_module_signature file = some (sig, off))
    (hoff : 0 ≤ off)
    (hhash : hashName sig.hash = some hn) :
    (pg_verify_module_signature ([] : List (cert_cache_entry_t α))
      verify_with_cert calc_hash (some file)).has_signature = true ∧
    (pg_verify_module_signature ([] : List (cert_cache_entry_t α))
      verify_with_cert calc_hash (some file)).valid = false ∧
    (pg_verify_module_signature ([] : List (cert_cache_entry_t α))
      verify_with_cert calc_hash (some file)).error_message =
      some "Signature verification failed against all certificates" := by
  have hnlt : ¬ (off < 0) := not_lt.mpr hoff
  simp [pg_verify_module_signature, hfind, hnlt, hhash, List.find?,
    pg_result_init]

/-- Witness for the amended C6 theorem at the concrete module `moduleOK`
with an empty `Nat`-certificate store. -/
theorem empty_store_amended_witness :
    (pg_verify_module_signature ([] : List (cert_cache_entry_t Nat))
      (fun _ _ _ => false) (fun _ _ => []) (some moduleOK)).has_signature =
      true ∧
    (pg_verify_module_signature ([] : List (cert_cache_entry_t Nat))
      (fun _ _ _ => false) (fun _ _ => []) (some moduleOK)).valid = false ∧
    (pg_verify_module_signature ([] : List (cert_cache_entry_t Nat))
      (fun _ _ _ => false) (fun _ _ => []) (some moduleOK)).error_message =
      some "Signature verification failed against all certificates" :=
  empty_store_amended (fun _ _ _ => false) (fun _ _ => []) moduleOK hdrOK 1
    "sha256" (by decide) (by decide) (by decide)

/-- The header of `moduleC7`: public-key algorithm id 5, outside the defined
set, with an otherwise well-formed trailer. -/
def hdrC7 : module_signature :=
  { algo := 5, hash := 2, id_type := 1, signer_len := 0, key_id_len := 0,
    pad0 := 0, pad1 := 0, pad2 := 0, sig_len := 1 }

/-- A 42-byte signed module whose trailer carries the unknown algo byte 5. -/
def moduleC7 : List Nat := buildModule [7] [9] [] [] hdrC7

/-- C7 counterexample: `moduleC7` has algo byte 5 (outside {RSA=0}), yet
verification proceeds against the store and succeeds (`valid = true`, no
error): the code never inspects the algo byte, contradicting the claimed
`"Unknown public-key algorithm"` rejection. -/
theorem unknown_algo_counterexample :
    (decode_module_signature
      ((moduleC7.drop (moduleC7.length - 40)).take 12)).algo = 5 ∧
    (pg_verify_module_signature
      [({ cert := 0, fingerprint := "aa" } : cert_cache_entry_t Nat)]
      (fun _ _ _ => true) (fun _ _ => []) (some moduleC7)).valid = true ∧
    (pg_verify_module_signature
      [({ cert := 0, fingerprint := "aa" } : cert_cache_entry_t Nat)]
      (fun _ _ _ => true) (fun _ _ => []) (some moduleC7)).error_message =
      none := by
  decide

/-- C7 (amended): the algo byte is never validated: no verification, on any
input, produces the error message `"Unknown public-key algorithm"`;
verification proceeds to certificate matching regardless of the algo value
(reporting `"rsa"` on success). -/
theorem unknown_algo_amended {α : Type}
    (certs : List (cert_cache_entry_t α))
    (verify_with_cert : List Nat → List Nat → α → Bool)
    (calc_hash : String → List Nat → List Nat)
    (module_file : Option (List Nat)) :
    (pg_verify_module_signature certs verify_with_cert calc_hash
      module_file).error_message ≠ some "Unknown public-key algorithm" := by
  rcases pg_verify_result_cases certs verify_with_cert calc_hash module_file
    with hc | hc | ⟨off, sl, hc⟩ | ⟨off, sl, hn, hc⟩ | ⟨off, sl, hn, fp, hc⟩ <;>
    rw [hc] <;> simp [pg_result_init]

/-- Whenever `pg_find_module_signature` succeeds with a non-negative offset,
the verify result has `has_signature = true`, in every continuation branch
(unknown hash, certificate match, no match). -/
theorem has_signature_of_find {α : Type}
    (certs : List (cert_cache_entry_t α))
    (verify_with_cert : List Nat → List Nat → α → Bool)
    (calc_hash : String → List Nat → List Nat)
    (file : List Nat) (sig : module_signature) (off : Int)
    (hfind : pg_find_module_signature file = some (sig, off))
    (hoff : 0 ≤ off) :
    (pg_verify_module_signature certs verify_with_cert calc_hash
      (some file)).has_signature = true := by
  have hnlt : ¬ (off < 0) := not_lt.mpr hoff
  cases hh : hashName sig.hash with
  | none => simp [pg_verify_module_signature, hfind, hnlt, hh]
  | some hn =>
    cases hfd : certs.find? (fun e =>
        verify_with_cert (calc_hash hn (file.take off.toNat))
          ((file.drop off.toNat).take sig.sig_len) e.cert) with
    | none => simp [pg_verify_module_signature, hfind, hnlt, hh, hfd]
    | some e => simp [pg_verify_module_signature, hfind, hnlt, hh, hfd]

/-- The header of `moduleC8`: padding byte at header offset 5 set to `0x01`,
otherwise a well-formed trailer. -/
def hdrC8 : module_signature :=
  { algo := 0, hash := 2, id_type := 1, signer_len := 0, key_id_len := 0,
    pad0 := 1, pad1 := 0, pad2 := 0, sig_len := 1 }

/-- A 42-byte signed module whose trailer has the nonzero padding byte. -/
def moduleC8 : List Nat := buildModule [7] [9] [] [] hdrC8

/-- C8 counterexample: `moduleC8` ends in MAGIC and its trailer has the
nonzero padding byte `0x01` at header offset 5, yet the verify result is not
malformed: verification proceeds and succeeds (`has_signature = true`,
`valid = true`, no error message), contradicting the claimed
`valid = false` malformed-trailer outcome. -/
theorem padding_counterexample :
    (decode_module_signature
      ((moduleC8.drop (moduleC8.length - 40)).take 12)).pad0 = 1 ∧
    (pg_verify_module_signature
      [({ cert := 0, fingerprint := "aa" } : cert_cache_entry_t Nat)]
      (fun _ _ _ => true) (fun _ _ => []) (some moduleC8)).has_signature =
      true ∧
    (pg_verify_module_signature
      [({ cert := 0, fingerprint := "aa" } : cert_cache_entry_t Nat)]
      (fun _ _ _ => true) (fun _ _ => []) (some moduleC8)).valid = true ∧
    (pg_verify_module_signature
      [({ cert := 0, fingerprint := "aa" } : cert_cache_entry_t Nat)]
      (fun _ _ _ => true) (fun _ _ => []) (some moduleC8)).error_message =
      none := by
  decide

/-- C8 (amended): the padding bytes are never validated: a trailer with any
nonzero padding byte parses exactly as a zero-padded one —
`pg_find_module_signature` succeeds with the same offset and `sig_len`, and
the verify result has `has_signature = true` with no malformed-trailer
rejection. -/
theorem padding_amended (content sigBytes signer keyid : List Nat)
    (hdr : module_signature)
    (hpad : ¬ (hdr.pad0 = 0 ∧ hdr.pad1 = 0 ∧ hdr.pad2 = 0))
    (hsig : hdr.sig_len = sigBytes.length)
    (h1 : 1 ≤ sigBytes.length)
    (h32 : sigBytes.length < 4294967296)
    (h2 : sigBytes.length ≤
      (buildModule content sigBytes signer keyid hdr).length / 2) :
    pg_find_module_signature (buildModule content sigBytes signer keyid hdr) =
      some (decode_module_signature (encode_trailer_header hdr),
        ((content.length + signer.length + keyid.length : Nat) : Int)) ∧
    ∀ (α : Type) (certs : List (cert_cache_entry_t α))
      (verify_with_cert : List Nat → List Nat → α → Bool)
      (calc_hash : String → List Nat → List Nat),
      (pg_verify_module_signature certs verify_with_cert calc_hash
        (some (buildModule content sigBytes signer keyid hdr))).has_signature
        = true := by
  have hfind := pg_find_buildModule content sigBytes signer keyid hdr hsig h1
    h32 h2
  refine ⟨hfind, ?_⟩
  intro α certs verify_with_cert calc_hash
  exact has_signature_of_find certs verify_with_cert calc_hash _ _ _ hfind
    (by omega)

/-- Witness for the amended C8 theorem at the concrete module `moduleC8`. -/
theorem padding_amended_witness :
    pg_find_module_signature (buildModule [7] [9] [] [] hdrC8) =
      some (decode_module_signature (encode_trailer_header hdrC8),
        ((([7] : List Nat).length + ([] : List Nat).length +
          ([] : List Nat).length : Nat) : Int)) ∧
    ∀ (α : Type) (certs : List (cert_cache_entry_t α))
      (verify_with_cert : List Nat → List Nat → α → Bool)
      (calc_hash : String → List Nat → List Nat),
      (pg_verify_module_signature certs verify_with_cert calc_hash
        (some (buildModule [7] [9] [] [] hdrC8))).has_signature = true :=
  padding_amended [7] [9] [] [] hdrC8 (by decide) (by decide) (by decide)
    (by decide) (by decide)

/-- C9 counterexample: loading the same certificate (here certificate 0,
fingerprint "00") twice leaves the store's iteration yielding it twice, not
exactly once: no deduplication happens at load time. -/
theorem load_idempotence_counterexample :
    (pg_load_certificate dgC3 (pg_load_certificate dgC3 [] (some 0))
      (some 0)).length = 2 ∧
    (pg_load_certificate dgC3 (pg_load_certificate dgC3 [] (some 0))
      (some 0)).countP
      (fun e => e.fingerprint == pg_fingerprint dgC3 0) = 2 ∧
    ¬ ((pg_load_certificate dgC3 (pg_load_certificate dgC3 [] (some 0))
      (some 0)).countP
      (fun e => e.fingerprint == pg_fingerprint dgC3 0) = 1) := by
  decide

/-- C9 (amended): loading the same certificate twice prepends two identical
entries to the cache: the store's iteration yields that certificate twice (no
deduplication, by fingerprint or otherwise, is performed at load time). -/
theorem load_idempotence_amended {α : Type}
    (digest : α → Option (List Nat))
    (cache : List (cert_cache_entry_t α)) (c : α) :
    pg_load_certificate digest (pg_load_certificate digest cache (some c))
      (some c) =
      { cert := c, fingerprint := pg_fingerprint digest c } ::
        { cert := c, fingerprint := pg_fingerprint digest c } :: cache := rfl

/-- C10: the fingerprint-building writes are not all within the 64-byte
buffer: with the 32-byte SHA-256 digest, the write offsets include offset 64
(the NUL terminator written by the final `sprintf` and again by the explicit
`fingerprint[md_len * 2] = '\0'`), which is outside `malloc(64)`'s bounds
`[0, 64)` — an off-by-one heap overflow. -/
theorem fingerprint_write_out_of_bounds :
    fingerprint_buffer_size ∈ fingerprint_write_offsets SHA256_digest_len ∧
    ¬ ((fingerprint_write_offsets SHA256_digest_len).all
      (fun off => off < fingerprint_buffer_size) = true) := by
  decide
